import Mathlib

/-!
Verification of the libhdfs native MiniDFSCluster interface
(`hadoop-hdfs-project/hadoop-hdfs/src/main/native/libhdfs/native_mini_dfs.h`).

The repository ships only the header: the declarations of the cluster
handle type, the configuration struct, and the five lifecycle functions
`nmdCreate`, `nmdWaitClusterUp`, `nmdShutdown`, `nmdFree` and
`nmdGetNameNodePort`.  Two embeddings are developed side by side:

* a syntactic embedding of the header's declaration list, used for the
  properties about the shape of the interface (the single-field
  configuration struct, the forward-declared handle type, the include
  guard);
* a behavioural model of the five operations.  The C implementation
  (`native_mini_dfs.c`) is not part of the sources, so each operation is
  modelled from the specification's words, with an explicit environment
  describing how the external managed-runtime cluster behaves on a run.
-/

namespace NativeMiniDfs

/-! ## Syntactic embedding of the header -/

/-- C types appearing in the header's declarations. -/
inductive CType where
  | intTy : CType
  | voidTy : CType
  | jbooleanTy : CType
  | ptr : CType → CType
  | structTy : String → CType
deriving DecidableEq

/-- Top-level C declarations appearing in the header: a forward struct
declaration, a struct definition with its field list, or a function
declaration with its return type and argument types. -/
inductive CDecl where
  | forwardStruct : String → CDecl
  | structDef : String → List (String × CType) → CDecl
  | funDecl : String → CType → List CType → CDecl
deriving DecidableEq

/-- The declarations of `native_mini_dfs.h`, transcribed in order from the
source header. -/
def nativeMiniDfsHeaderDecls : List CDecl :=
  [ CDecl.forwardStruct "NativeMiniDfsCluster",
    CDecl.structDef "NativeMiniDfsConf" [("doFormat", CType.jbooleanTy)],
    CDecl.funDecl "nmdCreate" (CType.ptr (CType.structTy "NativeMiniDfsCluster"))
      [CType.ptr (CType.structTy "NativeMiniDfsConf")],
    CDecl.funDecl "nmdWaitClusterUp" CType.intTy
      [CType.ptr (CType.structTy "NativeMiniDfsCluster")],
    CDecl.funDecl "nmdShutdown" CType.intTy
      [CType.ptr (CType.structTy "NativeMiniDfsCluster")],
    CDecl.funDecl "nmdFree" CType.voidTy
      [CType.ptr (CType.structTy "NativeMiniDfsCluster")],
    CDecl.funDecl "nmdGetNameNodePort" CType.intTy
      [CType.ptr (CType.structTy "NativeMiniDfsCluster")] ]

/-- Whether a declaration is a struct definition (with a field list) for the
struct named `n`. -/
def CDecl.definesStruct (d : CDecl) (n : String) : Bool :=
  match d with
  | CDecl.structDef m _ => m == n
  | _ => false

/-- Whether a C type mentions the struct named `n`. -/
def CType.mentionsStruct (t : CType) (n : String) : Bool :=
  match t with
  | CType.ptr u => u.mentionsStruct n
  | CType.structTy m => m == n
  | _ => false

/-- Every function declared in the header, other than `nmdCreate`, takes the
cluster handle pointer as its sole argument. -/
def takesOnlyClusterPtr (d : CDecl) : Bool :=
  match d with
  | CDecl.funDecl n _ args =>
      n == "nmdCreate" || args == [CType.ptr (CType.structTy "NativeMiniDfsCluster")]
  | _ => true

/-- Only `nmdCreate` has a return type mentioning the cluster handle struct. -/
def clusterReturnOnlyCreate (d : CDecl) : Bool :=
  match d with
  | CDecl.funDecl n ret _ => n == "nmdCreate" || !ret.mentionsStruct "NativeMiniDfsCluster"
  | _ => true

/-! ## Preprocessing model for the include guard -/

/-- One preprocessing pass over `native_mini_dfs.h`: if the include-guard
macro `LIBHDFS_NATIVE_MINI_DFS_H` is already defined the whole body is
skipped and no declarations are produced; otherwise the macro is defined and
the header's declarations are produced. -/
def processHeader (defined : List String) : List String × List CDecl :=
  if "LIBHDFS_NATIVE_MINI_DFS_H" ∈ defined then (defined, [])
  else ("LIBHDFS_NATIVE_MINI_DFS_H" :: defined, nativeMiniDfsHeaderDecls)

/-- Include the header `n` times in a row in the same translation unit,
accumulating the produced declarations. -/
def includeTimes : Nat → List String → List String × List CDecl
  | 0, st => (st, [])
  | Nat.succ n, st =>
    ((includeTimes n (processHeader st).1).1,
     (processHeader st).2 ++ (includeTimes n (processHeader st).1).2)

/-! ## Behavioural model

`native_mini_dfs.c` is not among the sources; only the header's
declarations and documentation are.  The five operations are therefore
modelled from the specification.  A `MiniDfsEnv` records how the external
managed-runtime cluster behaves on the run under consideration: whether
creation succeeds, whether a NameNode gets bound and at which port, whether
the cluster ever leaves safe mode, and whether teardown throws. -/

/-- The JNI `jboolean` scalar type: an unsigned byte, nonzero meaning true. -/
abbrev jboolean := Nat

/-- The configuration struct of the header: a single `jboolean` field
`doFormat`, nonzero if the cluster storage should be formatted prior to
startup. -/
structure NativeMiniDfsConf where
  doFormat : jboolean
deriving DecidableEq

/-- Lifecycle phase of the external cluster object. -/
inductive ClusterPhase where
  | starting : ClusterPhase
  | up : ClusterPhase
  | shutdownDone : ClusterPhase
deriving DecidableEq

/-- Modelled from the spec: the state of the external managed-runtime
cluster that a `NativeMiniDfsCluster` handle refers to.  The handle itself
is opaque to the native side; this record is the externally owned object it
stands for: its phase, the NameNode port bound for it (if any), and whether
its storage was formatted before startup. -/
structure NativeMiniDfsCluster where
  phase : ClusterPhase
  nnPortBound : Option Nat
  formatted : Bool
deriving DecidableEq

/-- Modelled from the spec: the behaviour of the external managed runtime
on one run (the implementation `native_mini_dfs.c` is not among the
sources).  The error codes are the raw codes the managed side reports. -/
structure MiniDfsEnv where
  createSucceeds : Bool
  bindsNameNode : Bool
  bindPort : Nat
  exitsSafeMode : Bool
  safeModeErr : Int
  shutdownThrows : Bool
  shutdownErr : Int
deriving DecidableEq

/-- Well-formedness of an environment: reported error codes are nonzero,
and a cluster that exits safe mode (is ready to serve) has a bound
NameNode. -/
def MiniDfsEnv.Wf (e : MiniDfsEnv) : Prop :=
  e.safeModeErr ≠ 0 ∧ e.shutdownErr ≠ 0 ∧
    (e.exitsSafeMode = true → e.bindsNameNode = true)

instance (e : MiniDfsEnv) : Decidable e.Wf := by
  unfold MiniDfsEnv.Wf; infer_instance

/-- Modelled from the spec: `nmdCreate` builds and starts a cluster from
the configuration, returning a handle on success or a null pointer (here
`none`) on failure, with no further error detail.  The configuration is
input-only: it is handed back unchanged in the second component. -/
def nmdCreate (env : MiniDfsEnv) (conf : NativeMiniDfsConf) :
    Option NativeMiniDfsCluster × NativeMiniDfsConf :=
  if env.createSucceeds then
    (some { phase := ClusterPhase.starting,
            nnPortBound := if env.bindsNameNode then some env.bindPort else none,
            formatted := conf.doFormat != 0 }, conf)
  else (none, conf)

/-- Modelled from the spec: `nmdWaitClusterUp` blocks until the cluster
exits safe mode, returning 0 and a ready cluster on success, or the raw
nonzero error code (cluster unchanged) if it fails to come out of safe
mode. -/
def nmdWaitClusterUp (env : MiniDfsEnv) (cl : NativeMiniDfsCluster) :
    Int × NativeMiniDfsCluster :=
  if env.exitsSafeMode then (0, { cl with phase := ClusterPhase.up })
  else (env.safeModeErr, cl)

/-- Modelled from the spec: `nmdShutdown` requests teardown of the cluster,
returning 0 on success and the raw nonzero error code if an exception is
thrown during shutdown; no retry or recovery is attempted. -/
def nmdShutdown (env : MiniDfsEnv) (cl : NativeMiniDfsCluster) :
    Int × NativeMiniDfsCluster :=
  if env.shutdownThrows then (env.shutdownErr, cl)
  else (0, { cl with phase := ClusterPhase.shutdownDone })

/-- Modelled from the spec: `nmdGetNameNodePort` returns the bound
listening port of the (single, non-HA) NameNode, or a negative value when
no NameNode was bound for the handle. -/
def nmdGetNameNodePort (cl : NativeMiniDfsCluster) : Int :=
  match cl.nnPortBound with
  | some p => (p : Int)
  | none => -1

/-- Native-side resources associated with a handle. -/
structure NativeSide where
  handleResources : Nat
deriving DecidableEq

/-- Modelled from the spec: `nmdFree` releases all native-side resources
associated with the handle, returns nothing (no failure signalling), and
performs no cluster-level shutdown of its own: the external cluster state
is handed back untouched. -/
def nmdFree (_ns : NativeSide) (cl : NativeMiniDfsCluster) :
    Unit × NativeSide × NativeMiniDfsCluster :=
  ((), { handleResources := 0 }, cl)

/-! ## Lifecycle protocol

Modelled from the spec: the caller discipline for a successfully created
handle — `nmdFree` is called exactly once, after `nmdShutdown` (or instead
of it, if the cluster was never started). -/

/-- Lifecycle operations a caller may perform on a successfully created
handle. -/
inductive LifeOp where
  | waitUp : LifeOp
  | shutdownOp : LifeOp
  | freeOp : LifeOp
deriving DecidableEq

/-- Protocol states of a successfully created handle. -/
inductive LifeState where
  | createdSt : LifeState
  | upSt : LifeState
  | downSt : LifeState
  | freedSt : LifeState
deriving DecidableEq

/-- Modelled from the spec: the legal lifecycle transitions on a handle.
From a freshly created handle the caller may wait for the cluster, shut it
down, or free it directly (if the cluster was never started); a freed
handle admits no further operation. -/
def lifeStep : LifeState → LifeOp → Option LifeState
  | LifeState.createdSt, LifeOp.waitUp => some LifeState.upSt
  | LifeState.createdSt, LifeOp.shutdownOp => some LifeState.downSt
  | LifeState.createdSt, LifeOp.freeOp => some LifeState.freedSt
  | LifeState.upSt, LifeOp.shutdownOp => some LifeState.downSt
  | LifeState.downSt, LifeOp.freeOp => some LifeState.freedSt
  | _, _ => none

/-- Run a sequence of lifecycle operations from a state, failing if any
transition is illegal. -/
def runFrom : LifeState → List LifeOp → Option LifeState
  | s, [] => some s
  | s, op :: t =>
    match lifeStep s op with
    | some s2 => runFrom s2 t
    | none => none

/-- A complete, contract-respecting lifecycle of a successfully created
handle: every step is legal and the handle ends up freed. -/
def ContractOk (t : List LifeOp) : Prop :=
  runFrom LifeState.createdSt t = some LifeState.freedSt

instance (t : List LifeOp) : Decidable (ContractOk t) := by
  unfold ContractOk; infer_instance

/-- Number of `freeOp` operations in a lifecycle trace. -/
def countFree : List LifeOp → Nat
  | [] => 0
  | LifeOp.freeOp :: t => countFree t + 1
  | _ :: t => countFree t

/-- Last operation of a lifecycle trace, if any. -/
def lastOp : List LifeOp → Option LifeOp
  | [] => none
  | [op] => some op
  | _ :: op :: t => lastOp (op :: t)

/-! ## Concrete environments and clusters used by the witnesses -/

/-- A run on which everything succeeds: the NameNode binds port 8020, the
cluster leaves safe mode, shutdown does not throw. -/
def eOk : MiniDfsEnv :=
  { createSucceeds := true, bindsNameNode := true, bindPort := 8020,
    exitsSafeMode := true, safeModeErr := 1, shutdownThrows := false,
    shutdownErr := 2 }

/-- A run on which cluster creation fails. -/
def eFail : MiniDfsEnv :=
  { createSucceeds := false, bindsNameNode := false, bindPort := 0,
    exitsSafeMode := false, safeModeErr := 1, shutdownThrows := false,
    shutdownErr := 2 }

/-- A run on which the cluster never comes out of safe mode. -/
def eStuck : MiniDfsEnv :=
  { createSucceeds := true, bindsNameNode := true, bindPort := 8020,
    exitsSafeMode := false, safeModeErr := 3, shutdownThrows := false,
    shutdownErr := 2 }

/-- A run on which shutdown throws an exception. -/
def eThrow : MiniDfsEnv :=
  { createSucceeds := true, bindsNameNode := true, bindPort := 8020,
    exitsSafeMode := true, safeModeErr := 1, shutdownThrows := true,
    shutdownErr := 5 }

/-- A freshly created cluster with a bound NameNode, as produced by
`nmdCreate eOk confFmt`. -/
def cStart : NativeMiniDfsCluster :=
  { phase := ClusterPhase.starting, nnPortBound := some 8020, formatted := true }

/-- A handle for which no NameNode was ever bound. -/
def cUnbound : NativeMiniDfsCluster :=
  { phase := ClusterPhase.starting, nnPortBound := none, formatted := true }

/-- A configuration requesting a format before startup. -/
def confFmt : NativeMiniDfsConf := { doFormat := 1 }

/-! ## Lemmas about the lifecycle protocol -/

/-- No lifecycle operation is legal on a freed handle. -/
theorem runFrom_freedSt_nil (t : List LifeOp) (s : LifeState)
    (h : runFrom LifeState.freedSt t = some s) : t = [] := by
  cases t with
  | nil => rfl
  | cons op rest => cases op <;> simp [runFrom, lifeStep] at h

/-- A legal trace leading from a non-freed state to the freed state frees
the handle exactly once. -/
theorem countFree_of_runFrom (t : List LifeOp) :
    ∀ s : LifeState, s ≠ LifeState.freedSt →
      runFrom s t = some LifeState.freedSt → countFree t = 1 := by
  induction t with
  | nil =>
      intro s hs h
      simp [runFrom] at h
      exact absurd h hs
  | cons op rest ih =>
      intro s hs h
      cases s with
      | createdSt =>
          cases op with
          | waitUp =>
              simp only [runFrom, lifeStep] at h
              simpa [countFree] using ih LifeState.upSt (by decide) h
          | shutdownOp =>
              simp only [runFrom, lifeStep] at h
              simpa [countFree] using ih LifeState.downSt (by decide) h
          | freeOp =>
              simp only [runFrom, lifeStep] at h
              rw [runFrom_freedSt_nil rest LifeState.freedSt h]
              rfl
      | upSt =>
          cases op with
          | waitUp => simp [runFrom, lifeStep] at h
          | shutdownOp =>
              simp only [runFrom, lifeStep] at h
              simpa [countFree] using ih LifeState.downSt (by decide) h
          | freeOp => simp [runFrom, lifeStep] at h
      | downSt =>
          cases op with
          | waitUp => simp [runFrom, lifeStep] at h
          | shutdownOp => simp [runFrom, lifeStep] at h
          | freeOp =>
              simp only [runFrom, lifeStep] at h
              rw [runFrom_freedSt_nil rest LifeState.freedSt h]
              rfl
      | freedSt => exact absurd rfl hs

/-- A legal trace leading from a non-freed state to the freed state ends
with the free operation. -/
theorem lastOp_of_runFrom (t : List LifeOp) :
    ∀ s : LifeState, s ≠ LifeState.freedSt →
      runFrom s t = some LifeState.freedSt → lastOp t = some LifeOp.freeOp := by
  induction t with
  | nil =>
      intro s hs h
      simp [runFrom] at h
      exact absurd h hs
  | cons op rest ih =>
      intro s hs h
      cases rest with
      | nil =>
          cases s <;> cases op <;> simp [runFrom, lifeStep] at h <;> rfl
      | cons op2 rest2 =>
          cases s with
          | createdSt =>
              cases op with
              | waitUp =>
                  simp only [runFrom, lifeStep] at h
                  simpa [lastOp] using ih LifeState.upSt (by decide) h
              | shutdownOp =>
                  simp only [runFrom, lifeStep] at h
                  simpa [lastOp] using ih LifeState.downSt (by decide) h
              | freeOp =>
                  simp only [runFrom, lifeStep] at h
                  exact Option.noConfusion h
          | upSt =>
              cases op with
              | waitUp => simp [runFrom, lifeStep] at h
              | shutdownOp =>
                  simp only [runFrom, lifeStep] at h
                  simpa [lastOp] using ih LifeState.downSt (by decide) h
              | freeOp => simp [runFrom, lifeStep] at h
          | downSt =>
              cases op with
              | waitUp => simp [runFrom, lifeStep] at h
              | shutdownOp => simp [runFrom, lifeStep] at h
              | freeOp =>
                  simp only [runFrom, lifeStep] at h
                  exact Option.noConfusion h
          | freedSt => exact absurd rfl hs

/-! ## Lemmas about the include guard -/

/-- After one pass over the header, the guard macro is defined. -/
theorem guard_mem_processHeader (st : List String) :
    "LIBHDFS_NATIVE_MINI_DFS_H" ∈ (processHeader st).1 := by
  by_cases h : "LIBHDFS_NATIVE_MINI_DFS_H" ∈ st
  · simp [processHeader, h]
  · simp [processHeader, h]

/-- Once the guard macro is defined, any number of further inclusions
leaves the state unchanged and produces no declarations. -/
theorem includeTimes_of_mem (n : Nat) (st : List String)
    (h : "LIBHDFS_NATIVE_MINI_DFS_H" ∈ st) : includeTimes n st = (st, []) := by
  induction n with
  | zero => rfl
  | succ n ih => simp [includeTimes, processHeader, h, ih]

/-! ## The claims -/

/-- Claim C1: for every configuration and every behaviour of the external
runtime, `nmdCreate` returns either a handle to a cluster in the defined
freshly-created state (formatted exactly as requested) or an absent result;
and any two failing calls return identical results, so a caller can learn
nothing about why creation failed beyond the absence of the handle. -/
theorem nmdCreate_contract :
    ∀ (env : MiniDfsEnv) (conf : NativeMiniDfsConf),
      ((∃ cl, (nmdCreate env conf).1 = some cl ∧
          cl.phase = ClusterPhase.starting ∧
          cl.formatted = (conf.doFormat != 0)) ∨
        (nmdCreate env conf).1 = none) ∧
      (∀ (e2 : MiniDfsEnv) (c2 : NativeMiniDfsConf),
        (nmdCreate env conf).1 = none → (nmdCreate e2 c2).1 = none →
        (nmdCreate env conf).1 = (nmdCreate e2 c2).1) := by
  intro env conf
  refine ⟨?_, ?_⟩
  · by_cases h : env.createSucceeds = true
    · refine Or.inl ⟨NativeMiniDfsCluster.mk ClusterPhase.starting
        (if env.bindsNameNode then some env.bindPort else none)
        (conf.doFormat != 0), ?_, rfl, rfl⟩
      simp [nmdCreate, h]
    · exact Or.inr (by simp [nmdCreate, h])
  · intro e2 c2 h1 h2
    rw [h1, h2]

/-- Witness for C1: two distinct failing creations are indistinguishable. -/
theorem nmdCreate_contract_witness :
    (nmdCreate eFail confFmt).1 = (nmdCreate eFail { doFormat := 0 }).1 :=
  (nmdCreate_contract eFail confFmt).2 eFail { doFormat := 0 }
    (by decide) (by decide)

/-- Claim C2: on a handle produced by a successful `nmdCreate` (phase
`starting`), `nmdWaitClusterUp` returns 0 exactly when the cluster becomes
ready (ends up in the `up` phase), and returns a nonzero status exactly
when the cluster fails to come out of safe mode. -/
theorem nmdWaitClusterUp_contract :
    ∀ (env : MiniDfsEnv) (cl : NativeMiniDfsCluster), env.Wf →
      cl.phase = ClusterPhase.starting →
      (((nmdWaitClusterUp env cl).1 = 0 ↔
          (nmdWaitClusterUp env cl).2.phase = ClusterPhase.up) ∧
        ((nmdWaitClusterUp env cl).1 ≠ 0 ↔ env.exitsSafeMode = false)) := by
  intro env cl hwf hst
  obtain ⟨hsm, -, -⟩ := hwf
  by_cases h : env.exitsSafeMode = true
  · simp [nmdWaitClusterUp, h]
  · have h2 : env.exitsSafeMode = false := by
      cases hx : env.exitsSafeMode
      · rfl
      · exact absurd hx h
    simp [nmdWaitClusterUp, h2, hsm, hst]

/-- Witness for C2: on the all-success run the wait returns 0 and the
cluster is up. -/
theorem nmdWaitClusterUp_contract_witness :
    ((nmdWaitClusterUp eOk cStart).1 = 0 ↔
        (nmdWaitClusterUp eOk cStart).2.phase = ClusterPhase.up) ∧
      ((nmdWaitClusterUp eOk cStart).1 ≠ 0 ↔ eOk.exitsSafeMode = false) :=
  nmdWaitClusterUp_contract eOk cStart (by decide) (by decide)

/-- Claim C3: on a handle produced by a successful `nmdCreate`, once
`nmdWaitClusterUp` has returned 0 the port query returns a non-negative
value, namely the actual bound NameNode port; on a handle with no bound
NameNode it returns a negative value; and a non-negative return is always
exactly the bound port, never stale or garbage. -/
theorem nmdGetNameNodePort_contract :
    ∀ (env : MiniDfsEnv) (conf : NativeMiniDfsConf) (cl : NativeMiniDfsCluster),
      env.Wf → (nmdCreate env conf).1 = some cl →
      (((nmdWaitClusterUp env cl).1 = 0 →
          0 ≤ nmdGetNameNodePort (nmdWaitClusterUp env cl).2 ∧
          nmdGetNameNodePort (nmdWaitClusterUp env cl).2 = (env.bindPort : Int)) ∧
        (cl.nnPortBound = none → nmdGetNameNodePort cl < 0) ∧
        (∀ p : Nat, cl.nnPortBound = some p → nmdGetNameNodePort cl = (p : Int))) := by
  intro env conf cl hwf hcl
  obtain ⟨hsmErr, -, hbind⟩ := hwf
  refine ⟨?_, ?_, ?_⟩
  · intro h0
    by_cases hsm : env.exitsSafeMode = true
    · have hb : env.bindsNameNode = true := hbind hsm
      by_cases hc : env.createSucceeds = true
      · simp [nmdCreate, hc] at hcl
        subst hcl
        simp [nmdWaitClusterUp, hsm, nmdGetNameNodePort, hb]
      · simp [nmdCreate, hc] at hcl
    · simp [nmdWaitClusterUp, hsm] at h0
      exact absurd h0 hsmErr
  · intro hnone
    simp [nmdGetNameNodePort, hnone]
  · intro p hp
    simp [nmdGetNameNodePort, hp]

/-- Witness for C3: on the all-success run the port query after the wait
returns the bound port 8020. -/
theorem nmdGetNameNodePort_contract_witness :
    0 ≤ nmdGetNameNodePort (nmdWaitClusterUp eOk cStart).2 ∧
      nmdGetNameNodePort (nmdWaitClusterUp eOk cStart).2 = (eOk.bindPort : Int) :=
  (nmdGetNameNodePort_contract eOk confFmt cStart (by decide) (by decide)).1
    (by decide)

/-- Claim C4: `nmdShutdown` returns 0 exactly when no exception is thrown
during shutdown, a nonzero status exactly when one is, and in the failing
case it surfaces the raw error code with the cluster state untouched: no
retry or recovery happens at this layer. -/
theorem nmdShutdown_contract :
    ∀ (env : MiniDfsEnv) (cl : NativeMiniDfsCluster), env.Wf →
      (((nmdShutdown env cl).1 = 0 ↔ env.shutdownThrows = false) ∧
        ((nmdShutdown env cl).1 ≠ 0 ↔ env.shutdownThrows = true) ∧
        (env.shutdownThrows = true → nmdShutdown env cl = (env.shutdownErr, cl))) := by
  intro env cl hwf
  obtain ⟨-, hsdErr, -⟩ := hwf
  by_cases h : env.shutdownThrows = true
  · simp [nmdShutdown, h, hsdErr]
  · have h2 : env.shutdownThrows = false := by
      cases hx : env.shutdownThrows
      · rfl
      · exact absurd hx h
    simp [nmdShutdown, h2]

/-- Witness for C4: a throwing teardown surfaces the raw error code 5. -/
theorem nmdShutdown_contract_witness :
    nmdShutdown eThrow cStart = (eThrow.shutdownErr, cStart) :=
  (nmdShutdown_contract eThrow cStart (by decide)).2.2 (by decide)

/-- Claim C5: `nmdFree` releases all native-side resources of the handle,
returns nothing (its `Unit` result carries no failure signal), and performs
no cluster-level shutdown of its own — the external cluster state is handed
back untouched; and in every contract-respecting lifecycle of a
successfully created handle, free is performed exactly once and as the
final operation, after shutdown or (if the cluster was never started)
instead of it. -/
theorem nmdFree_contract :
    (∀ (ns : NativeSide) (cl : NativeMiniDfsCluster),
        nmdFree ns cl = ((), { handleResources := 0 }, cl)) ∧
      (∀ t : List LifeOp, ContractOk t →
        countFree t = 1 ∧ lastOp t = some LifeOp.freeOp) := by
  refine ⟨fun ns cl => rfl, fun t h => ⟨?_, ?_⟩⟩
  · exact countFree_of_runFrom t LifeState.createdSt (by decide) h
  · exact lastOp_of_runFrom t LifeState.createdSt (by decide) h

/-- Witness for C5: the lifecycle shutdown-then-free frees exactly once,
as the final operation. -/
theorem nmdFree_contract_witness :
    countFree [LifeOp.shutdownOp, LifeOp.freeOp] = 1 ∧
      lastOp [LifeOp.shutdownOp, LifeOp.freeOp] = some LifeOp.freeOp :=
  nmdFree_contract.2 [LifeOp.shutdownOp, LifeOp.freeOp] (by decide)

/-- Claim C6: `nmdCreate` treats the configuration as input-only: the
configuration handed back by the call is the one passed in, unchanged, on
success and on failure alike; in particular `doFormat` is never written
back. -/
theorem nmdCreate_conf_input_only :
    ∀ (env : MiniDfsEnv) (conf : NativeMiniDfsConf),
      (nmdCreate env conf).2 = conf ∧
        ((nmdCreate env conf).2).doFormat = conf.doFormat := by
  intro env conf
  unfold nmdCreate
  split <;> exact ⟨rfl, rfl⟩

/-- Claim C7: the header defines `NativeMiniDfsConf` with exactly the single
`jboolean` field `doFormat`; a configuration value is fully determined by
that one field and every boolean value is a possible configuration; and a
nonzero `doFormat` means precisely that the created cluster's storage is
formatted prior to startup. -/
theorem conf_single_boolean_field :
    (CDecl.structDef "NativeMiniDfsConf" [("doFormat", CType.jbooleanTy)]
        ∈ nativeMiniDfsHeaderDecls) ∧
      (∀ c1 c2 : NativeMiniDfsConf, c1.doFormat = c2.doFormat → c1 = c2) ∧
      (∀ b : jboolean, ∃ c : NativeMiniDfsConf, c.doFormat = b) ∧
      (∀ (env : MiniDfsEnv) (conf : NativeMiniDfsConf) (cl : NativeMiniDfsCluster),
        (nmdCreate env conf).1 = some cl →
        (cl.formatted = true ↔ conf.doFormat ≠ 0)) := by
  refine ⟨by decide, ?_, fun b => ⟨⟨b⟩, rfl⟩, ?_⟩
  · intro c1 c2 h
    cases c1
    cases c2
    simpa using h
  · intro env conf cl hcl
    by_cases h : env.createSucceeds = true
    · simp [nmdCreate, h] at hcl
      subst hcl
      simp
    · simp [nmdCreate, h] at hcl

/-- Witness for C7: the cluster created from `confFmt` is formatted, and
indeed `confFmt.doFormat` is nonzero. -/
theorem conf_single_boolean_field_witness :
    cStart.formatted = true ↔ confFmt.doFormat ≠ 0 :=
  conf_single_boolean_field.2.2.2 eOk confFmt cStart (by decide)

/-- Claim C8: `nmdShutdown` is total on every handle, including one whose
cluster was never successfully brought up: it always returns a status,
either 0 or the runtime's raw error code, and a nonzero outcome is
possible. -/
theorem nmdShutdown_total_on_never_up :
    (∀ (env : MiniDfsEnv) (cl : NativeMiniDfsCluster),
        cl.phase = ClusterPhase.starting →
        ((nmdShutdown env cl).1 = 0 ∨ (nmdShutdown env cl).1 = env.shutdownErr)) ∧
      (∃ (env : MiniDfsEnv) (cl : NativeMiniDfsCluster),
        cl.phase = ClusterPhase.starting ∧ (nmdShutdown env cl).1 ≠ 0) := by
  constructor
  · intro env cl h
    unfold nmdShutdown
    split
    · exact Or.inr rfl
    · exact Or.inl rfl
  · exact ⟨eThrow, cStart, rfl, by decide⟩

/-- Witness for C8: shutting down a never-up handle on a non-throwing run
returns a status value. -/
theorem nmdShutdown_total_on_never_up_witness :
    (nmdShutdown eOk cStart).1 = 0 ∨ (nmdShutdown eOk cStart).1 = eOk.shutdownErr :=
  nmdShutdown_total_on_never_up.1 eOk cStart (by decide)

/-- Claim C9: the header forward-declares `NativeMiniDfsCluster` and never
defines it (so no field of it is accessible to the native side), every
declared function other than `nmdCreate` takes the handle pointer as its
sole argument, and only `nmdCreate` produces the handle. -/
theorem cluster_handle_forward_declared :
    (nativeMiniDfsHeaderDecls.contains
        (CDecl.forwardStruct "NativeMiniDfsCluster") = true) ∧
      (nativeMiniDfsHeaderDecls.all
        (fun d => !(d.definesStruct "NativeMiniDfsCluster")) = true) ∧
      (nativeMiniDfsHeaderDecls.all takesOnlyClusterPtr = true) ∧
      (nativeMiniDfsHeaderDecls.all clusterReturnOnlyCreate = true) := by
  decide

/-- Claim C10: the include guard makes inclusion idempotent — any positive
number of inclusions of the header in a translation unit produces exactly
the declarations of a single inclusion, and a pass with the guard macro
already defined produces no declarations at all. -/
theorem include_guard_idempotent :
    ∀ (st : List String) (n : Nat), 1 ≤ n →
      ((includeTimes n st).2 = (includeTimes 1 st).2 ∧
        ("LIBHDFS_NATIVE_MINI_DFS_H" ∈ st → (processHeader st).2 = [])) := by
  intro st n hn
  constructor
  · obtain ⟨m, rfl⟩ : ∃ m, n = m + 1 := ⟨n - 1, (Nat.succ_pred_eq_of_pos hn).symm⟩
    have hg := guard_mem_processHeader st
    simp [includeTimes, includeTimes_of_mem m _ hg]
  · intro h
    simp [processHeader, h]

/-- Witness for C10: three inclusions into a fresh translation unit yield
the same declarations as one. -/
theorem include_guard_idempotent_witness :
    (includeTimes 3 []).2 = (includeTimes 1 []).2 :=
  (include_guard_idempotent [] 3 (by decide)).1

end NativeMiniDfs
